import Mathlib

/-!
Verification development for `squidle_campaign_downloader.py`.

The Python source is shallowly embedded: network sessions become functions
from request parameters to response bodies (the text `requests` would place
in `r.text`), `json.loads` / `json.dumps` become an executable parser and
serializer over a `Json` inductive, Python exceptions become an `Except PyErr`
result, the process pool's unordered completion becomes an explicit
completion-order parameter (a permutation of the task indices), and the
filesystem becomes an explicit association of paths to file data.
Python `float` values are modelled as exact rationals: every claim below is
about which coercions are applied, not about rounding.
-/

/-- Json values as produced by `json.loads`.  Python `None` (both a JSON
`null` and the result of `dict.get` on a missing key) is `Json.null`. -/
inductive Json where
  | null
  | bool (b : Bool)
  | num (q : ℚ)
  | str (s : String)
  | arr (elems : List Json)
  | obj (fields : List (String × Json))

/-- Python exceptions that the embedded code can raise. -/
inductive PyErr where
  | jsonDecodeError
  | attributeError
  | typeError
  | valueError
deriving DecidableEq

/-- Opening brace character, kept out of string literals. -/
def lbrace : Char := Char.ofNat 123

/-- Closing brace character, kept out of string literals. -/
def rbrace : Char := Char.ofNat 125

/-- JSON insignificant whitespace skipping. -/
def skipWs : List Char → List Char
  | c :: cs => if c = ' ' ∨ c = '\t' ∨ c = '\n' ∨ c = '\r' then skipWs cs else c :: cs
  | [] => []

/-- Longest leading run of ASCII digits. -/
def takeDigits : List Char → List Char × List Char
  | [] => ([], [])
  | c :: cs =>
    if c.isDigit then
      let (ds, rest) := takeDigits cs
      (c :: ds, rest)
    else ([], c :: cs)

/-- Numeric value of a digit string. -/
def digitsToNat (ds : List Char) : Nat :=
  ds.foldl (fun a c => a * 10 + (c.toNat - 48)) 0

/-- Rational value of a parsed decimal literal: sign, integer digits,
fraction digits, decimal exponent. -/
def mkDecimal (neg : Bool) (ip fp : List Char) (exp : Int) : ℚ :=
  let base : ℚ := (digitsToNat (ip ++ fp) : ℚ) / ((10 : ℚ) ^ fp.length)
  let scaled : ℚ := if 0 ≤ exp then base * (10 : ℚ) ^ exp.toNat else base / ((10 : ℚ) ^ (-exp).toNat)
  if neg then -scaled else scaled

/-- Parse an optional exponent part (`e`/`E`, optional sign, digits).
Absent exponent parses as `0` consuming nothing. -/
def parseExpOpt : List Char → Option (Int × List Char)
  | [] => some (0, [])
  | c :: cs =>
    if c = 'e' ∨ c = 'E' then
      let signAndRest : Bool × List Char :=
        match cs with
        | '-' :: t => (true, t)
        | '+' :: t => (false, t)
        | _ => (false, cs)
      let (neg, cs1) := signAndRest
      let (ds, cs2) := takeDigits cs1
      if ds.isEmpty then none
      else some ((if neg then -(digitsToNat ds : Int) else (digitsToNat ds : Int)), cs2)
    else some (0, c :: cs)

/-- Parse a JSON number token. -/
def jsonNumber (cs : List Char) : Option (ℚ × List Char) :=
  let signAndRest : Bool × List Char :=
    match cs with
    | '-' :: t => (true, t)
    | _ => (false, cs)
  let (neg, cs1) := signAndRest
  let (ip, cs2) := takeDigits cs1
  if ip.isEmpty then none
  else
    match cs2 with
    | '.' :: cs3 =>
      let (fp, cs4) := takeDigits cs3
      if fp.isEmpty then none
      else
        match parseExpOpt cs4 with
        | some (e, r) => some (mkDecimal neg ip fp e, r)
        | none => none
    | _ =>
      match parseExpOpt cs2 with
      | some (e, r) => some (mkDecimal neg ip [] e, r)
      | none => none

/-- Parse the body of a JSON string (after the opening quote), returning the
decoded characters and the remainder after the closing quote. -/
def parseStrBody : List Char → Option (List Char × List Char)
  | [] => none
  | c :: cs =>
    if c = '"' then some ([], cs)
    else if c = '\\' then
      match cs with
      | [] => none
      | d :: ds =>
        match (if d = '"' then some '"'
               else if d = '\\' then some '\\'
               else if d = '/' then some '/'
               else if d = 'n' then some '\n'
               else if d = 't' then some '\t'
               else if d = 'r' then some '\r'
               else none) with
        | none => none
        | some ch =>
          match parseStrBody ds with
          | none => none
          | some (out, rest) => some (ch :: out, rest)
    else
      match parseStrBody cs with
      | none => none
      | some (out, rest) => some (c :: out, rest)

mutual

/-- Fuel-indexed parser for one JSON value (the modelled subset of the
`json.loads` grammar: null, true, false, strings, numbers, arrays, objects). -/
def parseVal : Nat → List Char → Option (Json × List Char)
  | 0, _ => none
  | fuel + 1, cs0 =>
    let cs := skipWs cs0
    match cs with
    | [] => none
    | c :: rest =>
      if c = 'n' then
        if ['u', 'l', 'l'].isPrefixOf rest then some (.null, rest.drop 3) else none
      else if c = 't' then
        if ['r', 'u', 'e'].isPrefixOf rest then some (.bool true, rest.drop 3) else none
      else if c = 'f' then
        if ['a', 'l', 's', 'e'].isPrefixOf rest then some (.bool false, rest.drop 4) else none
      else if c = '"' then
        match parseStrBody rest with
        | some (out, r2) => some (.str (String.mk out), r2)
        | none => none
      else if c = '[' then
        let r2 := skipWs rest
        match r2 with
        | c2 :: r3 => if c2 = ']' then some (.arr [], r3) else parseArrItems fuel r2
        | [] => none
      else if c = lbrace then
        let r2 := skipWs rest
        match r2 with
        | c2 :: r3 => if c2 = rbrace then some (.obj [], r3) else parseObjItems fuel r2
        | [] => none
      else
        match jsonNumber (c :: rest) with
        | some (q, r2) => some (.num q, r2)
        | none => none

/-- Fuel-indexed parser for the comma-separated items of a non-empty array. -/
def parseArrItems : Nat → List Char → Option (Json × List Char)
  | 0, _ => none
  | fuel + 1, cs =>
    match parseVal fuel cs with
    | none => none
    | some (v, rest) =>
      let rest2 := skipWs rest
      match rest2 with
      | c :: r2 =>
        if c = ',' then
          match parseArrItems fuel r2 with
          | some (.arr vs, r3) => some (.arr (v :: vs), r3)
          | _ => none
        else if c = ']' then some (.arr [v], r2)
        else none
      | [] => none

/-- Fuel-indexed parser for the comma-separated entries of a non-empty object. -/
def parseObjItems : Nat → List Char → Option (Json × List Char)
  | 0, _ => none
  | fuel + 1, cs0 =>
    let cs := skipWs cs0
    match cs with
    | [] => none
    | c :: rest =>
      if c = '"' then
        match parseStrBody rest with
        | none => none
        | some (key, r2) =>
          let r3 := skipWs r2
          match r3 with
          | c2 :: r4 =>
            if c2 = ':' then
              match parseVal fuel r4 with
              | none => none
              | some (v, r5) =>
                let r6 := skipWs r5
                match r6 with
                | c3 :: r7 =>
                  if c3 = ',' then
                    match parseObjItems fuel r7 with
                    | some (.obj fs, r8) => some (.obj ((String.mk key, v) :: fs), r8)
                    | _ => none
                  else if c3 = rbrace then some (.obj [(String.mk key, v)], r7)
                  else none
                | [] => none
            else none
          | [] => none
      else none

end

/-- Model of `json.loads`: parse the whole body, tolerating trailing
whitespace only; `none` models a raised `json.JSONDecodeError`. -/
def jsonLoads (s : String) : Option Json :=
  match parseVal (s.data.length + 2) s.data with
  | some (v, rest) => if (skipWs rest).isEmpty then some v else none
  | none => none

/-- Escape one character for a JSON string literal. -/
def escapeChar (c : Char) : String :=
  if c = '"' then "\\\"" else if c = '\\' then "\\\\" else String.singleton c

/-- Escape a string for inclusion in a JSON document. -/
def escapeStr (s : String) : String :=
  String.join (s.data.map escapeChar)

mutual

/-- Model of `json.dumps` with its default separators (", " and ": "). -/
def jsonDumps : Json → String
  | .null => "null"
  | .bool true => "true"
  | .bool false => "false"
  | .num q => if q.den = 1 then toString q.num else toString q
  | .str s => "\"" ++ escapeStr s ++ "\""
  | .arr xs => "[" ++ dumpsArr xs ++ "]"
  | .obj fs => String.singleton lbrace ++ dumpsObj fs ++ String.singleton rbrace

/-- Serialize array elements. -/
def dumpsArr : List Json → String
  | [] => ""
  | [x] => jsonDumps x
  | x :: y :: xs => jsonDumps x ++ ", " ++ dumpsArr (y :: xs)

/-- Serialize object entries. -/
def dumpsObj : List (String × Json) → String
  | [] => ""
  | [(k, v)] => "\"" ++ escapeStr k ++ "\": " ++ jsonDumps v
  | (k, v) :: f :: fs => "\"" ++ escapeStr k ++ "\": " ++ jsonDumps v ++ ", " ++ dumpsObj (f :: fs)

end

/-- Python `x.get(key)` on a value `x` that came from JSON: succeeds only on
a dict, yielding `None` (`Json.null`) for a missing key; on any non-dict
value it models the raised `AttributeError`. -/
def pyGet (j : Json) (key : String) : Except PyErr Json :=
  match j with
  | .obj fs => .ok ((fs.lookup key).getD .null)
  | _ => .error .attributeError

/-- Python whitespace, the character class stripped by `str.strip` and
`str.rstrip`. -/
def isPySpace (c : Char) : Bool :=
  c == ' ' || c == '\t' || c == '\n' || c == '\r' || c == Char.ofNat 11 || c == Char.ofNat 12

/-- Drop leading and trailing Python whitespace. -/
def stripChars (cs : List Char) : List Char :=
  ((cs.dropWhile isPySpace).reverse.dropWhile isPySpace).reverse

/-- Model of `str.rstrip()`: drop trailing Python whitespace. -/
def pyRstrip (s : String) : String :=
  String.mk (s.data.reverse.dropWhile isPySpace).reverse

/-- Model of Python `float(s)` on a string: strip whitespace, then an
optional sign, digits with optional fraction and exponent. -/
def parseFloatStr (s : String) : Option ℚ :=
  let cs := stripChars s.data
  let signAndRest : Bool × List Char :=
    match cs with
    | '-' :: t => (true, t)
    | '+' :: t => (false, t)
    | _ => (false, cs)
  let (neg, cs1) := signAndRest
  let (ip, cs2) := takeDigits cs1
  match cs2 with
  | '.' :: cs3 =>
    let (fp, cs4) := takeDigits cs3
    if ip.isEmpty && fp.isEmpty then none
    else
      match parseExpOpt cs4 with
      | some (e, r) => if r.isEmpty then some (mkDecimal neg ip fp e) else none
      | none => none
  | _ =>
    if ip.isEmpty then none
    else
      match parseExpOpt cs2 with
      | some (e, r) => if r.isEmpty then some (mkDecimal neg ip [] e) else none
      | none => none

/-- Model of Python `int(s)` on a string: strip whitespace, an optional sign
and digits only. -/
def parseIntStr (s : String) : Option Int :=
  let cs := stripChars s.data
  let signAndRest : Bool × List Char :=
    match cs with
    | '-' :: t => (true, t)
    | '+' :: t => (false, t)
    | _ => (false, cs)
  let (neg, cs1) := signAndRest
  let (ds, rest) := takeDigits cs1
  if ds.isEmpty ∨ ¬ rest.isEmpty then none
  else some (if neg then -(digitsToNat ds : Int) else (digitsToNat ds : Int))

/-- Truncation of a rational toward zero, Python's `int(float)` behavior. -/
def intTrunc (q : ℚ) : Int :=
  if 0 ≤ q then q.num.fdiv (q.den : Int) else -((-q.num).fdiv (q.den : Int))

/-- Model of Python `float(x)` for a value of JSON origin: `TypeError` on
`None`, lists and dicts; `ValueError` on a non-numeric string. -/
def pyFloatE : Json → Except PyErr ℚ
  | .num q => .ok q
  | .bool b => .ok (if b then 1 else 0)
  | .str s =>
    match parseFloatStr s with
    | some q => .ok q
    | none => .error .valueError
  | .null => .error .typeError
  | .arr _ => .error .typeError
  | .obj _ => .error .typeError

/-- Model of Python `int(x)` for a value of JSON origin. -/
def pyIntE : Json → Except PyErr Int
  | .num q => .ok (intTrunc q)
  | .bool b => .ok (if b then 1 else 0)
  | .str s =>
    match parseIntStr s with
    | some n => .ok n
    | none => .error .valueError
  | .null => .error .typeError
  | .arr _ => .error .typeError
  | .obj _ => .error .typeError

/-- Numeric value of a Python number-like object, for arithmetic such as
`num_results / 100`; `none` models the `TypeError` raised otherwise. -/
def numVal : Json → Option ℚ
  | .num q => some q
  | .bool b => some (if b then 1 else 0)
  | _ => none

/-- Ceiling of a rational as an integer, Python's `math.ceil`. -/
def ratCeil (q : ℚ) : Int := -((-q.num).fdiv (q.den : Int))

/-- Model of Python `range(a, b)` over integers. -/
def pyRange (a b : Int) : List Int :=
  (List.range (b - a).toNat).map fun i => a + (i : Int)

/-- Boolean substring test, Python's `sub in hay`. -/
def listContains (hay sub : List Char) : Bool :=
  match hay with
  | [] => sub.isEmpty
  | _ :: t => sub.isPrefixOf hay || listContains t sub

mutual

/-- Structural boolean equality of Json values. -/
def jsonBEq : Json → Json → Bool
  | .null, .null => true
  | .bool a, .bool b => a == b
  | .num a, .num b => decide (a = b)
  | .str a, .str b => a == b
  | .arr as, .arr bs => jsonListBEq as bs
  | .obj fs, .obj gs => jsonFieldsBEq fs gs
  | _, _ => false

/-- Structural boolean equality of Json lists. -/
def jsonListBEq : List Json → List Json → Bool
  | [], [] => true
  | a :: as, b :: bs => jsonBEq a b && jsonListBEq as bs
  | _, _ => false

/-- Structural boolean equality of Json object field lists. -/
def jsonFieldsBEq : List (String × Json) → List (String × Json) → Bool
  | [], [] => true
  | (k, v) :: fs, (k2, v2) :: gs => k == k2 && jsonBEq v v2 && jsonFieldsBEq fs gs
  | _, _ => false

end

mutual

/-- Soundness and completeness of `jsonBEq`, packaged as a definition so the
decidability instance below can live among the definitions. -/
def jsonBEq_iff : (a b : Json) → (jsonBEq a b = true ↔ a = b)
  | .null, b => by cases b <;> simp [jsonBEq]
  | .bool x, b => by cases b <;> simp [jsonBEq]
  | .num x, b => by cases b <;> simp [jsonBEq]
  | .str x, b => by cases b <;> simp [jsonBEq]
  | .arr xs, b => by
    cases b <;> simp [jsonBEq]
    exact jsonListBEq_iff xs _
  | .obj fs, b => by
    cases b <;> simp [jsonBEq]
    exact jsonFieldsBEq_iff fs _

/-- List version of `jsonBEq_iff`. -/
def jsonListBEq_iff : (as bs : List Json) → (jsonListBEq as bs = true ↔ as = bs)
  | [], bs => by cases bs <;> simp [jsonListBEq]
  | a :: as, bs => by
    cases bs with
    | nil => simp [jsonListBEq]
    | cons b bs =>
      simp [jsonListBEq, Bool.and_eq_true, jsonBEq_iff a b, jsonListBEq_iff as bs]

/-- Field-list version of `jsonBEq_iff`. -/
def jsonFieldsBEq_iff :
    (fs gs : List (String × Json)) → (jsonFieldsBEq fs gs = true ↔ fs = gs)
  | [], gs => by cases gs <;> simp [jsonFieldsBEq]
  | (k, v) :: fs, gs => by
    cases gs with
    | nil => simp [jsonFieldsBEq]
    | cons g gs =>
      cases g with
      | mk k2 v2 =>
        simp [jsonFieldsBEq, Bool.and_eq_true, jsonBEq_iff v v2,
          jsonFieldsBEq_iff fs gs, and_assoc]

end

instance : DecidableEq Json := fun a b => decidable_of_iff _ (jsonBEq_iff a b)

/-- Error marker the source greps for in a deployment response
(`"<h1>500</h1>" in r.text`). -/
def errMarker : String := "<h1>500</h1>"

/-- Request parameters of the single `GET <url>/api/deployment` query issued
per campaign: the JSON-encoded filter and the `single` flag. -/
structure DeploymentQuery where
  q : String
  single : Bool

/-- Request parameters of one `GET <url>/api/media` page query. -/
structure MediaQuery where
  q : String
  page : Int
  results_per_page : Int
  single : Bool

/-- Filter object the source builds for one campaign name
(`campaign has (name eq campaign_name)`). -/
def deploymentRequest (campaign_name : String) : Json :=
  Json.obj [("filters", Json.arr [Json.obj
    [("name", Json.str "campaign"), ("op", Json.str "has"),
     ("val", Json.obj [("name", Json.str "name"), ("op", Json.str "eq"),
                       ("val", Json.str campaign_name)])]])]

/-- Filter object the source builds for one deployment
(`deployment_id eq deployment`). -/
def mediaRequest (deployment : Json) : Json :=
  Json.obj [("filters", Json.arr [Json.obj
    [("name", Json.str "deployment_id"), ("op", Json.str "eq"),
     ("val", deployment)]])]

/-- Loop body `for obj in pretty_json.get("objects"): deployment_list.append(obj.get("id"))`
of `find_deployments`. -/
def appendIds : List Json → List Json → Except PyErr (List Json)
  | acc, [] => .ok acc
  | acc, x :: xs =>
    match pyGet x "id" with
    | .error e => .error e
    | .ok v => appendIds (acc ++ [v]) xs

/-- Campaign loop of `find_deployments`, carrying the shared accumulator
`deployment_list`.  A response containing `errMarker` is only logged; any
other response goes through `json.loads` and the `objects` iteration, and a
failure there propagates as a raised exception. -/
def find_deployments_go (session : DeploymentQuery → String) :
    List String → List Json → Except PyErr (List Json)
  | [], acc => .ok acc
  | campaign_name :: rest, acc =>
    if listContains (session ⟨jsonDumps (deploymentRequest campaign_name), true⟩).data
        errMarker.data then
      find_deployments_go session rest acc
    else
      match jsonLoads (session ⟨jsonDumps (deploymentRequest campaign_name), true⟩) with
      | none => .error .jsonDecodeError
      | some j =>
        match pyGet j "objects" with
        | .error e => .error e
        | .ok (.arr xs) =>
          match appendIds acc xs with
          | .error e => .error e
          | .ok acc2 => find_deployments_go session rest acc2
        | .ok _ => .error .typeError

/-- Embedding of `find_deployments` (source lines 25-73). -/
def find_deployments (session : DeploymentQuery → String)
    (campaign_list : List String) : Except PyErr (List Json) :=
  find_deployments_go session campaign_list []

/-- Loop body `for obj in pretty_json.get("objects"):` of
`find_images_in_deployments`: appends `obj.get("id")` and the deployment to
the two parallel accumulators. -/
def appendImages (deployment : Json) :
    List Json → List Json → List Json → Except PyErr (List Json × List Json)
  | [], image_ids, image_deployment => .ok (image_ids, image_deployment)
  | x :: xs, image_ids, image_deployment =>
    match pyGet x "id" with
    | .error e => .error e
    | .ok v => appendImages deployment xs (image_ids ++ [v]) (image_deployment ++ [deployment])

/-- Subsequent-page loop `for page in tqdm(range(2, num_pages)):` of
`find_images_in_deployments`; each page's `num_results` is re-read (a
non-dict page raises `AttributeError`) but otherwise unused. -/
def fetchPages (session : MediaQuery → String) (qstr : String) (deployment : Json) :
    List Int → List Json → List Json → Except PyErr (List Json × List Json)
  | [], image_ids, image_deployment => .ok (image_ids, image_deployment)
  | page :: pages, image_ids, image_deployment =>
    match jsonLoads (session ⟨qstr, page, 100, true⟩) with
    | none => .error .jsonDecodeError
    | some j =>
      match pyGet j "num_results" with
      | .error e => .error e
      | .ok _ =>
        match pyGet j "objects" with
        | .error e => .error e
        | .ok (.arr xs) =>
          match appendImages deployment xs image_ids image_deployment with
          | .error e => .error e
          | .ok (ids2, deps2) => fetchPages session qstr deployment pages ids2 deps2
        | .ok _ => .error .typeError

/-- Deployment loop of `find_images_in_deployments`: fetch page 1, append its
objects, compute `num_pages = math.ceil(num_results / results_per_page)`
(with `results_per_page = 100`), then walk `range(2, num_pages)`. -/
def find_images_go (session : MediaQuery → String) :
    List Json → List Json → List Json → Except PyErr (List Json × List Json)
  | [], image_ids, image_deployment => .ok (image_ids, image_deployment)
  | deployment :: ds, image_ids, image_deployment =>
    match jsonLoads (session ⟨jsonDumps (mediaRequest deployment), 1, 100, true⟩) with
    | none => .error .jsonDecodeError
    | some j =>
      match pyGet j "num_results" with
      | .error e => .error e
      | .ok num_results =>
        match pyGet j "objects" with
        | .error e => .error e
        | .ok (.arr xs) =>
          match appendImages deployment xs image_ids image_deployment with
          | .error e => .error e
          | .ok (ids1, deps1) =>
            match numVal num_results with
            | none => .error .typeError
            | some q =>
              match fetchPages session (jsonDumps (mediaRequest deployment)) deployment
                  (pyRange 2 (ratCeil (q / 100))) ids1 deps1 with
              | .error e => .error e
              | .ok (ids2, deps2) => find_images_go session ds ids2 deps2
        | .ok _ => .error .typeError

/-- Embedding of `find_images_in_deployments` (source lines 76-142). -/
def find_images_in_deployments (session : MediaQuery → String)
    (deployment_list : List Json) : Except PyErr (List Json × List Json) :=
  find_images_go session deployment_list [] []

/-- Manifest row, the single-row DataFrame built by `get_info_to_database`:
`lat/lon/dep/alt` hold the result of `float(...)` and the id columns the
result of `int(...)`; `timestamp` and `image_url` keep the raw JSON value. -/
structure Row where
  timestamp : Json
  lat : ℚ
  lon : ℚ
  dep : ℚ
  alt : ℚ
  image_url : Json
  image_id : Int
  deployment_id : Int
deriving DecidableEq

/-- Embedding of `get_info_to_database` (source lines 145-169): one GET to
`<url>/api/media_poses/<image_id>` (modelled as a function of the image id),
`json.loads`, and the typed row construction in source field order. -/
def get_info_to_database (pose_fetch : Json → String) :
    Json × Json → Except PyErr Row
  | (image_id, image_deployment) =>
  match jsonLoads (pose_fetch image_id) with
  | none => .error .jsonDecodeError
  | some j =>
    match pyGet j "media" with
    | .error e => .error e
    | .ok media =>
      match pyGet j "pose" with
      | .error e => .error e
      | .ok pose =>
        match pyGet pose "timestamp" with
        | .error e => .error e
        | .ok ts =>
          match (pyGet pose "lat").bind pyFloatE with
          | .error e => .error e
          | .ok lat =>
            match (pyGet pose "lon").bind pyFloatE with
            | .error e => .error e
            | .ok lon =>
              match (pyGet pose "dep").bind pyFloatE with
              | .error e => .error e
              | .ok dep =>
                match (pyGet pose "alt").bind pyFloatE with
                | .error e => .error e
                | .ok alt =>
                  match pyGet media "path_best" with
                  | .error e => .error e
                  | .ok url =>
                    match pyIntE image_id with
                    | .error e => .error e
                    | .ok iid =>
                      match pyIntE image_deployment with
                      | .error e => .error e
                      | .ok did =>
                        .ok ⟨ts, lat, lon, dep, alt, url, iid, did⟩

/-- Result-collection loop of `imap_unordered_bar`: results are appended in
completion order, and a worker's exception re-raises in the parent when its
slot is iterated. -/
def collectResults (func : α → Except PyErr β) : List α → Except PyErr (List β)
  | [] => .ok []
  | a :: as =>
    match func a with
    | .error e => .error e
    | .ok b =>
      match collectResults func as with
      | .error e => .error e
      | .ok bs => .ok (b :: bs)

/-- Embedding of `imap_unordered_bar` (source lines 12-22).  The pool's
nondeterministic completion order is an explicit parameter `compl`: the
task list the parent iterates is `args` permuted by `compl` (theorems
assume `compl` is a permutation of the index range).  The pool width
`n_processes` does not affect which results are collected. -/
def imap_unordered_bar (func : α → Except PyErr β) (args : List α)
    (compl : List Nat) (n_processes : Nat) : Except PyErr (List β) :=
  collectResults func (compl.filterMap fun i => args.get? i)

/-- Embedding of `get_image_pose_and_url` (source lines 172-202): zip the two
lists, fan out `get_info_to_database` over the pool, and concatenate the
single-row results in completion order.  The final
`astype(int)` on the id columns is the identity here because every row
already stores `int(...)`-coerced ids. -/
def get_image_pose_and_url (pose_fetch : Json → String)
    (image_ids image_deployment : List Json) (compl : List Nat) :
    Except PyErr (List Row) :=
  let zipped_image_ids_deployment := image_ids.zip image_deployment
  match imap_unordered_bar (get_info_to_database pose_fetch)
      zipped_image_ids_deployment compl 8 with
  | .error e => .error e
  | .ok results => .ok results

/-- Contents of one file in the modelled filesystem. -/
inductive FileData where
  | bytes (data : String)
  | table (header : List String) (rows : List Row)
deriving DecidableEq

/-- Filesystem namespace under the process: the set of existing directories
and the written files (paths are segment lists; the newest write of a path
is listed first and shadows older entries). -/
structure FS where
  dirs : List (List String)
  files : List (List String × FileData)
deriving DecidableEq

/-- Proper non-empty prefixes of a path, shortest first. -/
def pathPrefixes : List String → List (List String)
  | [] => []
  | a :: rest => [a] :: (pathPrefixes rest).map (a :: ·)

/-- Model of `Path.mkdir(parents=True, exist_ok=True)`: create every missing
ancestor, never failing on an existing one. -/
def mkdirParents (dirs : List (List String)) (path : List String) : List (List String) :=
  (pathPrefixes path).foldl (fun ds p => if p ∈ ds then ds else ds ++ [p]) dirs

/-- Embedding of `download_image_url` (source lines 205-222): the tuple is
`(url, deployment_id, image_id, output_folder)`; the destination is
`<output_folder>/<deployment_id>/<image_id>.png` with the `.png` extension
fixed by the source; the bytes fetched for `url.rstrip()` are written there.
The unused `a = urlparse(url.rstrip())` call contributes only the
`AttributeError` raised when `url` is not a string. -/
def download_image_url (http : String → String) (fs : FS)
    (task : Json × Int × Int × String) : Except PyErr (FS × List String) :=
  let (url, deployment_id, image_id, output_folder) := task
  match url with
  | .str u =>
    let deployment_path := [output_folder, toString deployment_id]
    let fs1 := if deployment_path ∈ fs.dirs then fs
               else { fs with dirs := mkdirParents fs.dirs deployment_path }
    let filename := deployment_path ++ [toString image_id ++ ".png"]
    let img_data := http (pyRstrip u)
    .ok ({ fs1 with files := (filename, .bytes img_data) :: fs1.files }, filename)
  | _ => .error .attributeError

/-- Observable events of the two parallel phases and the manifest write,
in the order the parent process performs or collects them. -/
inductive Ev where
  | getPose (image_id : Json)
  | writeCsv (path : List String) (header : List String) (rows : List Row)
  | imgDownload (url : Json) (filename : List String)
deriving DecidableEq

/-- Remote endpoints of one run, each mapping request data to the response
body text. -/
structure World where
  deploySess : DeploymentQuery → String
  mediaSess : MediaQuery → String
  poseSess : Json → String
  imgHttp : String → String

/-- Completion orders chosen by the pool in the two parallel phases. -/
structure Sched where
  poseOrder : List Nat
  dlOrder : List Nat

/-- Column order of the manifest DataFrame, fixed by the dict literals at
source lines 156-166 and 175-186. -/
def manifestColumns : List String :=
  ["timestamp", "lat", "lon", "dep", "alt", "image_url", "image_id", "deployment_id"]

/-- Download task built from one manifest row in `__main__`
(`zip(image_url_list, deployment_id_list, image_id_list)` plus the output). -/
def rowTask (output : String) (r : Row) : Json × Int × Int × String :=
  (r.image_url, r.deployment_id, r.image_id, output)

/-- Download phase: run `download_image_url` over the tasks in completion
order, collecting one `imgDownload` event per task. -/
def runDownloads (http : String → String) :
    FS → List (Json × Int × Int × String) → Except PyErr (FS × List Ev)
  | fs, [] => .ok (fs, [])
  | fs, t :: ts =>
    match download_image_url http fs t with
    | .error e => .error e
    | .ok (fs1, fn) =>
      match runDownloads http fs1 ts with
      | .error e => .error e
      | .ok (fs2, evs) => .ok (fs2, Ev.imgDownload t.1 fn :: evs)

/-- Pose-fetch events of the aggregation phase, one per pair in the pool's
completion order. -/
def poseEvsOf (poseOrder : List Nat) (image_list image_deployment_list : List Json) :
    List Ev :=
  (poseOrder.filterMap fun i => (image_list.zip image_deployment_list).get? i).map
    fun p => Ev.getPose p.1

/-- Creation of the output folder in `__main__`
(`if not output_folder.exists(): mkdir(parents=True, exist_ok=True)`). -/
def mkOutputDir (fs : FS) (output : String) : FS :=
  if [output] ∈ fs.dirs then fs else { fs with dirs := mkdirParents fs.dirs [output] }

/-- Filesystem after `database.to_csv(output_folder / "filelist.csv")`: the
output folder exists and the manifest table is written once at
`<output>/filelist.csv`. -/
def manifestFS (fs : FS) (output : String) (database : List Row) : FS :=
  { mkOutputDir fs output with
    files := ([output, "filelist.csv"], FileData.table manifestColumns database)
      :: (mkOutputDir fs output).files }

/-- Download tasks in the pool's completion order (`zipped_list` of
`__main__`, permuted by the completion order of the second pool use). -/
def dlTasks (output : String) (database : List Row) (dlOrder : List Nat) :
    List (Json × Int × Int × String) :=
  dlOrder.filterMap fun i => (database.map (rowTask output)).get? i

/-- Embedding of the `__main__` pipeline (source lines 246-271): resolve
deployments, enumerate media, aggregate poses through the pool, create the
output folder, persist the manifest once as `<output>/filelist.csv`, then
run the download phase.  The returned trace lists the pose fetches (in
completion order), the single manifest write, and the downloads (in
completion order). -/
def mainRun (w : World) (campaign_list : List String) (output : String)
    (sched : Sched) (fs : FS) : Except PyErr (List Ev × FS × List Row) :=
  match find_deployments w.deploySess campaign_list with
  | .error e => .error e
  | .ok deployment_list =>
    match find_images_in_deployments w.mediaSess deployment_list with
    | .error e => .error e
    | .ok (image_list, image_deployment_list) =>
      match get_image_pose_and_url w.poseSess image_list image_deployment_list
          sched.poseOrder with
      | .error e => .error e
      | .ok database =>
        match runDownloads w.imgHttp (manifestFS fs output database)
            (dlTasks output database sched.dlOrder) with
        | .error e => .error e
        | .ok (fs3, dlEvs) =>
          .ok (poseEvsOf sched.poseOrder image_list image_deployment_list
                ++ Ev.writeCsv [output, "filelist.csv"] manifestColumns database :: dlEvs,
               fs3, database)

deriving instance DecidableEq for Except

/-- The `id` field an object contributes to the deployment list (`Json.null`
when missing, as Python's `dict.get` yields `None`). -/
def idOf : Json → Json
  | .obj fs => (fs.lookup "id").getD .null
  | _ => .null

/-- Whether a JSON value is an object (a Python dict, on which `.get` works). -/
def isObjJson : Json → Bool
  | .obj _ => true
  | _ => false

/-- Deployment ids one campaign name contributes, read off the session's
response along the non-raising path of `find_deployments`: none for a
marker page, the `objects` ids otherwise. -/
def perCampaignIds (session : DeploymentQuery → String) (campaign_name : String) :
    List Json :=
  if listContains (session ⟨jsonDumps (deploymentRequest campaign_name), true⟩).data
      errMarker.data then []
  else
    match jsonLoads (session ⟨jsonDumps (deploymentRequest campaign_name), true⟩) with
    | none => []
    | some j =>
      match pyGet j "objects" with
      | .ok (.arr xs) => xs.map idOf
      | _ => []

/-- Whether the deployment response for one campaign lets `find_deployments`
proceed without raising: either the error marker page, or JSON with an
`objects` array of dicts. -/
def deployRespOk (session : DeploymentQuery → String) (campaign_name : String) : Bool :=
  listContains (session ⟨jsonDumps (deploymentRequest campaign_name), true⟩).data
      errMarker.data ||
    (match jsonLoads (session ⟨jsonDumps (deploymentRequest campaign_name), true⟩) with
     | none => false
     | some j =>
       match pyGet j "objects" with
       | .ok (.arr xs) => xs.all isObjJson
       | _ => false)

/-- Whether an event is the manifest write. -/
def isCsvEv : Ev → Bool
  | .writeCsv _ _ _ => true
  | _ => false

/-- Media page body with a reported total and the given image ids, as the
real server would serialize it. -/
def mediaPage (total : ℚ) (ids : List Json) : String :=
  jsonDumps (Json.obj [("num_results", .num total),
    ("objects", .arr (ids.map fun i => .obj [("id", i)]))])

/-- Image ids 1..100, the first page of the 150-image deployment. -/
def idsPage1 : List Json := (List.range 100).map fun i => Json.num ((i + 1 : ℕ) : ℚ)

/-- Image ids 101..150, the second page of the 150-image deployment. -/
def idsPage2 : List Json := (List.range 50).map fun i => Json.num ((i + 101 : ℕ) : ℚ)

/-- Media endpoint of a server hosting one deployment with 150 images split
over two pages of page size 100: page 1 holds ids 1..100 and reports
`num_results = 150`, every later page holds ids 101..150. -/
def srv150 : MediaQuery → String := fun mq =>
  if mq.page = 1 then mediaPage 150 idsPage1 else mediaPage 150 idsPage2

/-- Deployment endpoint answering every query with a malformed body that is
neither JSON nor a `<h1>500</h1>` page. -/
def badDeploySrv : DeploymentQuery → String := fun _ => "oops, not json"

/-- Media endpoint answering every query with a non-JSON body. -/
def garbageMediaSrv : MediaQuery → String := fun _ => "garbage"

/-- Deployment endpoint serving a `<h1>500</h1>` error page for campaign
`"c"` and one deployment (id 9) for every other campaign. -/
def srvMarker : DeploymentQuery → String := fun dq =>
  if dq.q = jsonDumps (deploymentRequest "c") then "error: <h1>500</h1> page"
  else jsonDumps (Json.obj [("objects", Json.arr [Json.obj [("id", Json.num 9)]])])

/-- Deployment endpoint where campaign `"a"` matches deployments 5 and 7 and
every other campaign matches deployment 5, so that `"a"` and `"b"` overlap. -/
def srvDup : DeploymentQuery → String := fun dq =>
  if dq.q = jsonDumps (deploymentRequest "a") then
    jsonDumps (Json.obj [("objects",
      Json.arr [Json.obj [("id", Json.num 5)], Json.obj [("id", Json.num 7)]])])
  else jsonDumps (Json.obj [("objects", Json.arr [Json.obj [("id", Json.num 5)]])])

/-- Concrete world: one campaign resolving to deployment 1, which holds the
single image 5, whose pose carries string-typed coordinates. -/
def w0 : World where
  deploySess := fun _ =>
    jsonDumps (Json.obj [("objects", Json.arr [Json.obj [("id", Json.num 1)]])])
  mediaSess := fun _ =>
    jsonDumps (Json.obj [("num_results", Json.num 1),
      ("objects", Json.arr [Json.obj [("id", Json.num 5)]])])
  poseSess := fun _ =>
    jsonDumps (Json.obj [
      ("media", Json.obj [("path_best", Json.str "http://x/y.jpg")]),
      ("pose", Json.obj [("timestamp", Json.str "t"), ("lat", Json.str "1.5"),
        ("lon", Json.str "2.5"), ("dep", Json.str "3.5"), ("alt", Json.str "4.5")])])
  imgHttp := fun _ => "IMGBYTES"

/-- Completion orders for the one-task phases of `w0`. -/
def sched0 : Sched := ⟨[0], [0]⟩

/-- Empty starting filesystem. -/
def fs0 : FS := ⟨[], []⟩

/-- The single manifest row `w0` produces. -/
def row0 : Row :=
  ⟨.str "t", 3/2, 5/2, 7/2, 9/2, .str "http://x/y.jpg", 5, 1⟩

/-- Trace of the `w0` run. -/
def trace0 : List Ev :=
  [Ev.getPose (.num 5),
   Ev.writeCsv ["out", "filelist.csv"] manifestColumns [row0],
   Ev.imgDownload (.str "http://x/y.jpg") ["out", "1", "5.png"]]

/-- Final filesystem of the `w0` run. -/
def fsFinal : FS :=
  ⟨[["out"], ["out", "1"]],
   [(["out", "1", "5.png"], .bytes "IMGBYTES"),
    (["out", "filelist.csv"], .table manifestColumns [row0])]⟩

theorem filterMap_get?_range (l : List α) :
    (List.range l.length).filterMap (fun i => l.get? i) = l := by
  induction l with
  | nil => rfl
  | cons a as ih =>
    rw [List.length_cons, List.range_succ_eq_map, List.filterMap_cons]
    simp only [List.get?_cons_zero, List.filterMap_map]
    have hcomp : ((fun i => (a :: as).get? i) ∘ Nat.succ) = fun i => as.get? i :=
      funext fun i => rfl
    rw [hcomp, ih]

theorem collectResults_ok (func : α → Except PyErr β) (g : α → β) :
    ∀ xs, (∀ a ∈ xs, func a = .ok (g a)) →
      collectResults func xs = .ok (xs.map g)
  | [], _ => rfl
  | a :: as, h => by
    rw [collectResults, h a (List.mem_cons_self a as),
      collectResults_ok func g as (fun x hx => h x (List.mem_cons_of_mem a hx))]
    rfl

theorem get_info_to_database_ids (pose_fetch : Json → String) (i d : Json) (r : Row)
    (h : get_info_to_database pose_fetch (i, d) = .ok r) :
    pyIntE i = .ok r.image_id ∧ pyIntE d = .ok r.deployment_id := by
  unfold get_info_to_database at h
  repeat' split at h
  all_goals simp_all
  rw [← h]
  exact ⟨rfl, rfl⟩

/-- C2: for every pair of input lists of equal length N, every completion
order of the pool, and every run in which each unit succeeds, the Parallel
Metadata Aggregator returns a manifest of exactly N rows that is a
permutation of one row per input pair, each row carrying the `int(...)`
coercion of its own pair's image id and deployment id — regardless of the
pool's completion order. -/
theorem aggregator_rows_exactly_once
    (pose_fetch : Json → String) (image_ids image_deployment : List Json)
    (compl : List Nat) (g : Json × Json → Row)
    (hlen : image_ids.length = image_deployment.length)
    (hcompl : compl.Perm (List.range image_ids.length))
    (hok : ∀ p ∈ image_ids.zip image_deployment,
      get_info_to_database pose_fetch p = .ok (g p)) :
    ∃ db, get_image_pose_and_url pose_fetch image_ids image_deployment compl = .ok db
      ∧ db.length = image_ids.length
      ∧ db.Perm ((image_ids.zip image_deployment).map g)
      ∧ ∀ p ∈ image_ids.zip image_deployment,
          pyIntE p.1 = .ok ((g p).image_id) ∧ pyIntE p.2 = .ok ((g p).deployment_id) := by
  have hzlen : (image_ids.zip image_deployment).length = image_ids.length := by
    rw [List.length_zip, hlen, min_self]
  have hperm :
      (compl.filterMap fun i => (image_ids.zip image_deployment).get? i).Perm
        (image_ids.zip image_deployment) := by
    have h1 := hcompl.filterMap (fun i => (image_ids.zip image_deployment).get? i)
    rw [← hzlen] at h1
    rw [filterMap_get?_range] at h1
    exact h1
  have hsub : ∀ p ∈ (compl.filterMap fun i => (image_ids.zip image_deployment).get? i),
      get_info_to_database pose_fetch p = .ok (g p) :=
    fun p hp => hok p (hperm.subset hp)
  have hcoll := collectResults_ok (get_info_to_database pose_fetch) g
    (compl.filterMap fun i => (image_ids.zip image_deployment).get? i) hsub
  refine ⟨(compl.filterMap fun i => (image_ids.zip image_deployment).get? i).map g,
    ?_, ?_, ?_, ?_⟩
  · rw [get_image_pose_and_url, imap_unordered_bar, hcoll]
  · rw [List.length_map, hperm.length_eq, hzlen]
  · exact hperm.map g
  · exact fun p hp =>
      get_info_to_database_ids pose_fetch p.1 p.2 (g p) (by rw [← hok p hp])

set_option maxRecDepth 100000 in
/-- Witness for C2 at a concrete one-element input. -/
theorem aggregator_rows_exactly_once_witness :
    ∃ db, get_image_pose_and_url w0.poseSess [Json.num 5] [Json.num 1] [0] = .ok db
      ∧ db.length = 1
      ∧ db.Perm (([Json.num 5].zip [Json.num 1]).map fun _ => row0)
      ∧ ∀ p ∈ [Json.num 5].zip [Json.num 1],
          pyIntE p.1 = .ok row0.image_id ∧ pyIntE p.2 = .ok row0.deployment_id :=
  aggregator_rows_exactly_once w0.poseSess [Json.num 5] [Json.num 1] [0]
    (fun _ => row0) rfl
    (by
      show ([0] : List Nat).Perm (List.range 1)
      rw [List.range_succ, List.range_zero, List.nil_append])
    (by
      intro p hp
      have hp2 : p = (Json.num 5, Json.num 1) := by simpa using hp
      subst hp2
      with_unfolding_all rfl)

/-- C3: every manifest row stores `lat/lon/dep/alt` as the numeric
(`float`-coerced) value and `image_id/deployment_id` as the `int`-coerced
value, even when the source JSON carried all of them as strings: for any
pose response whose coordinate fields are numeric strings and any
string-typed ids, the produced row holds the parsed numbers. -/
theorem manifest_row_types_coerced
    (pose_fetch : Json → String) (i d j media pose ts urlv : Json)
    (slat slon sdep salt : String) (qlat qlon qdep qalt : ℚ) (iid did : Int)
    (h1 : jsonLoads (pose_fetch i) = some j)
    (h2 : pyGet j "media" = .ok media)
    (h3 : pyGet j "pose" = .ok pose)
    (h4 : pyGet pose "timestamp" = .ok ts)
    (h5 : pyGet pose "lat" = .ok (.str slat)) (h6 : parseFloatStr slat = some qlat)
    (h7 : pyGet pose "lon" = .ok (.str slon)) (h8 : parseFloatStr slon = some qlon)
    (h9 : pyGet pose "dep" = .ok (.str sdep)) (h10 : parseFloatStr sdep = some qdep)
    (h11 : pyGet pose "alt" = .ok (.str salt)) (h12 : parseFloatStr salt = some qalt)
    (h13 : pyGet media "path_best" = .ok urlv)
    (h14 : pyIntE i = .ok iid) (h15 : pyIntE d = .ok did) :
    get_info_to_database pose_fetch (i, d)
      = .ok ⟨ts, qlat, qlon, qdep, qalt, urlv, iid, did⟩ := by
  simp only [get_info_to_database, h1, h2, h3, h4, h5, h7, h9, h11, Except.bind,
    pyFloatE, h6, h8, h10, h12, h13, h14, h15]

set_option maxRecDepth 100000 in
/-- Witness for C3: the pose response of `w0` carries all four coordinates
as strings and the ids are given as strings, yet the row is numeric. -/
theorem manifest_row_types_coerced_witness :
    get_info_to_database w0.poseSess (.str "5", .str "1")
      = .ok ⟨.str "t", 3/2, 5/2, 7/2, 9/2, .str "http://x/y.jpg", 5, 1⟩ :=
  manifest_row_types_coerced w0.poseSess (.str "5") (.str "1")
    (Json.obj [
      ("media", Json.obj [("path_best", Json.str "http://x/y.jpg")]),
      ("pose", Json.obj [("timestamp", Json.str "t"), ("lat", Json.str "1.5"),
        ("lon", Json.str "2.5"), ("dep", Json.str "3.5"), ("alt", Json.str "4.5")])])
    (Json.obj [("path_best", Json.str "http://x/y.jpg")])
    (Json.obj [("timestamp", Json.str "t"), ("lat", Json.str "1.5"),
      ("lon", Json.str "2.5"), ("dep", Json.str "3.5"), ("alt", Json.str "4.5")])
    (.str "t") (.str "http://x/y.jpg")
    "1.5" "2.5" "3.5" "4.5" (3/2) (5/2) (7/2) (9/2) 5 1
    (by with_unfolding_all rfl) (by with_unfolding_all rfl)
    (by with_unfolding_all rfl) (by with_unfolding_all rfl)
    (by with_unfolding_all rfl) (by with_unfolding_all rfl)
    (by with_unfolding_all rfl) (by with_unfolding_all rfl)
    (by with_unfolding_all rfl) (by with_unfolding_all rfl)
    (by with_unfolding_all rfl) (by with_unfolding_all rfl)
    (by with_unfolding_all rfl) (by with_unfolding_all rfl)
    (by with_unfolding_all rfl)

/-- C4 counterexample: a malformed deployment response that is not JSON and
does not contain the `<h1>500</h1>` marker makes the resolver raise a JSON
parse error instead of logging and continuing — refuting the claim that
every malformed or error response is tolerated and never raises. -/
theorem resolver_malformed_raises :
    find_deployments badDeploySrv ["c"] = .error .jsonDecodeError := by
  with_unfolding_all rfl

/-- C4 (amended): a deployment response containing the `<h1>500</h1>` marker
is only logged and treated as zero matches: the resolver neither raises nor
appends anything for that campaign and continues with the remaining ones. -/
theorem resolver_marker_tolerated
    (session : DeploymentQuery → String) (campaign_name : String) (rest : List String)
    (hmark : listContains
      (session ⟨jsonDumps (deploymentRequest campaign_name), true⟩).data
      errMarker.data = true) :
    find_deployments session (campaign_name :: rest) = find_deployments session rest := by
  unfold find_deployments
  rw [find_deployments_go]
  simp [hmark]

/-- Witness for the amended C4: campaign `"c"` serves a marker page and is
skipped; the run continues with campaign `"d"`. -/
theorem resolver_marker_tolerated_witness :
    find_deployments srvMarker ["c", "d"] = find_deployments srvMarker ["d"] :=
  resolver_marker_tolerated srvMarker "c" ["d"] (by with_unfolding_all rfl)

theorem find_images_go_error (session : MediaQuery → String) (d : Json)
    (hbad : jsonLoads (session ⟨jsonDumps (mediaRequest d), 1, 100, true⟩) = none) :
    ∀ ds ids deps, d ∈ ds → ∃ e, find_images_go session ds ids deps = .error e := by
  intro ds
  induction ds with
  | nil => intro ids deps h; exact absurd h (List.not_mem_nil d)
  | cons a ds ih =>
    intro ids deps hm
    rw [find_images_go]
    rcases List.mem_cons.mp hm with rfl | hm2
    · rw [hbad]
      exact ⟨_, rfl⟩
    · repeat' split
      all_goals first
      | exact ⟨_, rfl⟩
      | exact ih _ _ hm2

/-- C5: if any deployment in the list receives a response to its first media
page query that does not parse as JSON, the whole enumeration fails hard
with a raised error — it is not recovered locally as zero results. -/
theorem media_listing_error_fails_hard (session : MediaQuery → String)
    (deployment_list : List Json) (d : Json)
    (hmem : d ∈ deployment_list)
    (hbad : jsonLoads (session ⟨jsonDumps (mediaRequest d), 1, 100, true⟩) = none) :
    ∃ e, find_images_in_deployments session deployment_list = .error e :=
  find_images_go_error session d hbad deployment_list [] [] hmem

/-- Witness for C5 with a server returning a non-JSON body. -/
theorem media_listing_error_fails_hard_witness :
    ∃ e, find_images_in_deployments garbageMediaSrv [Json.num 3] = .error e :=
  media_listing_error_fails_hard garbageMediaSrv [Json.num 3] (Json.num 3)
    (List.mem_singleton.mpr rfl) (by with_unfolding_all rfl)

theorem appendIds_ok : ∀ (xs acc : List Json), xs.all isObjJson = true →
    appendIds acc xs = .ok (acc ++ xs.map idOf)
  | [], acc, _ => by simp [appendIds]
  | x :: xs, acc, h => by
    rw [List.all_cons, Bool.and_eq_true] at h
    obtain ⟨hx, hxs⟩ := h
    cases x with
    | obj fs =>
      simp only [appendIds, pyGet]
      rw [appendIds_ok xs (acc ++ [(fs.lookup "id").getD .null]) hxs]
      simp [idOf]
    | null => simp [isObjJson] at hx
    | bool b => simp [isObjJson] at hx
    | num q => simp [isObjJson] at hx
    | str s => simp [isObjJson] at hx
    | arr elems => simp [isObjJson] at hx

theorem find_deployments_go_ok (session : DeploymentQuery → String) :
    ∀ (names : List String) (acc : List Json),
      (∀ n ∈ names, deployRespOk session n = true) →
      find_deployments_go session names acc
        = .ok (acc ++ names.flatMap (perCampaignIds session))
  | [], acc, _ => by simp [find_deployments_go]
  | name :: rest, acc, h => by
    have hn := h name (List.mem_cons_self name rest)
    have hrest : ∀ n ∈ rest, deployRespOk session n = true :=
      fun n hn2 => h n (List.mem_cons_of_mem name hn2)
    rw [find_deployments_go]
    by_cases hmark : listContains
        (session ⟨jsonDumps (deploymentRequest name), true⟩).data errMarker.data = true
    · rw [if_pos hmark, find_deployments_go_ok session rest acc hrest]
      have hper : perCampaignIds session name = [] := by
        rw [perCampaignIds, if_pos hmark]
      simp [hper]
    · rw [if_neg hmark]
      unfold deployRespOk at hn
      rw [Bool.or_eq_true] at hn
      rcases hn with hmt | hrestok
      · exact absurd hmt hmark
      · cases hj : jsonLoads (session ⟨jsonDumps (deploymentRequest name), true⟩) with
        | none => simp [hj] at hrestok
        | some j =>
          simp only [hj] at hrestok
          cases hg : pyGet j "objects" with
          | error e => simp [hg] at hrestok
          | ok v =>
            simp only [hg] at hrestok
            cases v with
            | arr xs =>
              have hall : xs.all isObjJson = true := hrestok
              simp only [hj, hg]
              rw [appendIds_ok xs acc hall]
              show find_deployments_go session rest (acc ++ xs.map idOf)
                = Except.ok (acc ++ (name :: rest).flatMap (perCampaignIds session))
              rw [find_deployments_go_ok session rest (acc ++ xs.map idOf) hrest]
              have hper : perCampaignIds session name = xs.map idOf := by
                simp [perCampaignIds, hmark, hj, hg]
              simp [hper, List.append_assoc]
            | null => simp at hrestok
            | bool b => simp at hrestok
            | num q => simp at hrestok
            | str s => simp at hrestok
            | obj fields => simp at hrestok

/-- C6: whenever every campaign's deployment response is well formed (or a
tolerated marker page), the resolver returns exactly the concatenation of
the per-campaign matches in campaign order, page-object order within each
campaign, with duplicates across campaigns preserved. -/
theorem resolver_concat_in_order (session : DeploymentQuery → String)
    (campaign_list : List String)
    (h : ∀ n ∈ campaign_list, deployRespOk session n = true) :
    find_deployments session campaign_list
      = .ok (campaign_list.flatMap (perCampaignIds session)) := by
  rw [find_deployments, find_deployments_go_ok session campaign_list [] h,
    List.nil_append]

/-- Witness for C6: campaigns `"a"` and `"b"` overlap on deployment 5, and
the returned list keeps both occurrences. -/
theorem resolver_concat_in_order_witness :
    find_deployments srvDup ["a", "b"]
      = .ok (["a", "b"].flatMap (perCampaignIds srvDup)) :=
  resolver_concat_in_order srvDup ["a", "b"] (by
    intro n hn
    simp only [List.mem_cons, List.mem_singleton, List.not_mem_nil, or_false] at hn
    rcases hn with rfl | rfl
    · with_unfolding_all rfl
    · with_unfolding_all rfl)

theorem mem_mkdirParents_self (dirs : List (List String)) (a b : String) :
    [a, b] ∈ mkdirParents dirs [a, b] := by
  show [a, b] ∈ List.foldl _ dirs (pathPrefixes [a, b])
  have hpre : pathPrefixes [a, b] = [[a], [a, b]] := rfl
  rw [hpre, List.foldl_cons, List.foldl_cons, List.foldl_nil]
  split_ifs <;> first
  | assumption
  | exact List.mem_append_right _ (List.mem_singleton.mpr rfl)

/-- C7: for every manifest row data and output root, the downloader writes
the fetched bytes to exactly `<root>/<deployment_id>/<image_id>.png` (the
`.png` extension fixed, independent of the URL), ensures the deployment
directory exists afterwards, and when the directory already exists it
performs no directory change and still succeeds. -/
theorem download_writes_fixed_png_path (http : String → String) (fs : FS)
    (u : String) (deployment_id image_id : Int) (output_folder : String) :
    ∃ fs2, download_image_url http fs (.str u, deployment_id, image_id, output_folder)
        = .ok (fs2, [output_folder, toString deployment_id, toString image_id ++ ".png"])
      ∧ fs2.files.lookup
          [output_folder, toString deployment_id, toString image_id ++ ".png"]
          = some (.bytes (http (pyRstrip u)))
      ∧ [output_folder, toString deployment_id] ∈ fs2.dirs
      ∧ ([output_folder, toString deployment_id] ∈ fs.dirs →
          fs2 = { fs with files :=
            ([output_folder, toString deployment_id, toString image_id ++ ".png"],
              .bytes (http (pyRstrip u))) :: fs.files }) := by
  by_cases hd : [output_folder, toString deployment_id] ∈ fs.dirs
  · refine ⟨{ fs with files :=
        ([output_folder, toString deployment_id, toString image_id ++ ".png"],
          FileData.bytes (http (pyRstrip u))) :: fs.files }, ?_, ?_, ?_, ?_⟩
    · simp [download_image_url, hd]
    · simp [List.lookup]
    · exact hd
    · intro _
      rfl
  · refine ⟨⟨mkdirParents fs.dirs [output_folder, toString deployment_id],
        ([output_folder, toString deployment_id, toString image_id ++ ".png"],
          FileData.bytes (http (pyRstrip u))) :: fs.files⟩, ?_, ?_, ?_, ?_⟩
    · simp [download_image_url, hd]
    · simp [List.lookup]
    · exact mem_mkdirParents_self fs.dirs output_folder (toString deployment_id)
    · intro hcon
      exact absurd hcon hd

/-- Witness for C7 at a concrete download task. -/
theorem download_writes_fixed_png_path_witness :
    ∃ fs2, download_image_url w0.imgHttp fs0 (.str "http://x/y.jpg ", 10, 500, "out")
        = .ok (fs2, ["out", toString (10 : Int), toString (500 : Int) ++ ".png"])
      ∧ fs2.files.lookup ["out", toString (10 : Int), toString (500 : Int) ++ ".png"]
          = some (.bytes (w0.imgHttp (pyRstrip "http://x/y.jpg ")))
      ∧ ["out", toString (10 : Int)] ∈ fs2.dirs
      ∧ (["out", toString (10 : Int)] ∈ fs0.dirs →
          fs2 = { fs0 with files :=
            (["out", toString (10 : Int), toString (500 : Int) ++ ".png"],
              .bytes (w0.imgHttp (pyRstrip "http://x/y.jpg "))) :: fs0.files }) :=
  download_writes_fixed_png_path w0.imgHttp fs0 "http://x/y.jpg " 10 500 "out"

theorem dropWhile_append_all {p : Char → Bool} :
    ∀ (l m : List Char), (∀ c ∈ l, p c = true) →
      (l ++ m).dropWhile p = m.dropWhile p
  | [], m, _ => rfl
  | c :: cs, m, h => by
    rw [List.cons_append, List.dropWhile_cons,
      if_pos (h c (List.mem_cons_self c cs))]
    exact dropWhile_append_all cs m fun x hx => h x (List.mem_cons_of_mem c hx)

theorem pyRstrip_append (u w : String) (hw : ∀ c ∈ w.data, isPySpace c = true) :
    pyRstrip (u ++ w) = pyRstrip u := by
  unfold pyRstrip
  rw [String.data_append, List.reverse_append,
    dropWhile_append_all w.data.reverse u.data.reverse
      (fun c hc => hw c (List.mem_reverse.mp hc))]

/-- C10: trailing whitespace (spaces, tabs, newlines) on the image URL is
stripped before the URL is parsed and fetched, so a URL with a trailing-
whitespace suffix yields the very same download step as the clean URL; and
the destination filename depends only on the deployment and image ids,
never on the URL contents. -/
theorem download_url_whitespace_insensitive (http : String → String) (fs : FS)
    (u w : String) (deployment_id image_id : Int) (output_folder : String)
    (hw : ∀ c ∈ w.data, isPySpace c = true) :
    download_image_url http fs (.str (u ++ w), deployment_id, image_id, output_folder)
      = download_image_url http fs (.str u, deployment_id, image_id, output_folder)
    ∧ ∀ u2 : String,
        (download_image_url http fs (.str u2, deployment_id, image_id, output_folder)).map
          (fun r => r.2)
        = .ok [output_folder, toString deployment_id, toString image_id ++ ".png"] := by
  constructor
  · simp only [download_image_url, pyRstrip_append u w hw]
  · intro u2
    by_cases hd : [output_folder, toString deployment_id] ∈ fs.dirs <;>
      simp [download_image_url, hd, Except.map]

/-- Witness for C10 with the suffix of a newline, a space and a tab. -/
theorem download_url_whitespace_insensitive_witness :
    download_image_url w0.imgHttp fs0
        (.str ("http://x/y.jpg" ++ "\n \t"), 10, 500, "out")
      = download_image_url w0.imgHttp fs0 (.str "http://x/y.jpg", 10, 500, "out")
    ∧ ∀ u2 : String,
        (download_image_url w0.imgHttp fs0 (.str u2, 10, 500, "out")).map (fun r => r.2)
        = .ok ["out", toString (10 : Int), toString (500 : Int) ++ ".png"] :=
  download_url_whitespace_insensitive w0.imgHttp fs0 "http://x/y.jpg" "\n \t" 10 500 "out"
    (by decide)

theorem runDownloads_evs (http : String → String) :
    ∀ (tasks : List (Json × Int × Int × String)) (fs fs2 : FS) (evs : List Ev),
      runDownloads http fs tasks = .ok (fs2, evs) →
      ∀ e ∈ evs, ∃ u fn, e = Ev.imgDownload u fn
  | [], fs, fs2, evs, h => by
    simp only [runDownloads, Except.ok.injEq, Prod.mk.injEq] at h
    intro e he
    rw [← h.2] at he
    cases he
  | t :: ts, fs, fs2, evs, h => by
    rw [runDownloads] at h
    cases hdl : download_image_url http fs t with
    | error e => simp [hdl] at h
    | ok pr =>
      obtain ⟨fs1, fn⟩ := pr
      simp only [hdl] at h
      cases hrd : runDownloads http fs1 ts with
      | error e => simp [hrd] at h
      | ok pr2 =>
        obtain ⟨fs3, evs2⟩ := pr2
        simp only [hrd, Except.ok.injEq, Prod.mk.injEq] at h
        intro e he
        rw [← h.2] at he
        rcases List.mem_cons.mp he with rfl | he2
        · exact ⟨t.1, fn, rfl⟩
        · exact runDownloads_evs http ts fs1 fs3 evs2 hrd e he2

theorem mainRun_trace_shape
    (w : World) (campaign_list : List String) (output : String) (sched : Sched)
    (fs : FS) (trace : List Ev) (fs2 : FS) (db : List Row)
    (h : mainRun w campaign_list output sched fs = .ok (trace, fs2, db)) :
    ∃ pre post,
      trace = pre ++ Ev.writeCsv [output, "filelist.csv"] manifestColumns db :: post
      ∧ (∀ e ∈ pre, ∃ i, e = Ev.getPose i)
      ∧ (∀ e ∈ post, ∃ u fn, e = Ev.imgDownload u fn) := by
  rw [mainRun] at h
  cases h1 : find_deployments w.deploySess campaign_list with
  | error e => simp [h1] at h
  | ok deployment_list =>
    simp only [h1] at h
    cases h2 : find_images_in_deployments w.mediaSess deployment_list with
    | error e => simp [h2] at h
    | ok pr =>
      obtain ⟨image_list, image_deployment_list⟩ := pr
      simp only [h2] at h
      cases h3 : get_image_pose_and_url w.poseSess image_list image_deployment_list
          sched.poseOrder with
      | error e => simp [h3] at h
      | ok database =>
        simp only [h3] at h
        cases h4 : runDownloads w.imgHttp (manifestFS fs output database)
            (dlTasks output database sched.dlOrder) with
        | error e => simp [h4] at h
        | ok pr2 =>
          obtain ⟨fs4, dlEvs⟩ := pr2
          simp only [h4, Except.ok.injEq, Prod.mk.injEq] at h
          obtain ⟨htr, hfs, hdb⟩ := h
          refine ⟨poseEvsOf sched.poseOrder image_list image_deployment_list, dlEvs,
            ?_, ?_, ?_⟩
          · rw [← htr, hdb]
          · intro e he
            obtain ⟨p, _, hpe⟩ := List.mem_map.mp he
            exact ⟨p.1, hpe.symm⟩
          · exact runDownloads_evs w.imgHttp (dlTasks output database sched.dlOrder)
              (manifestFS fs output database) fs4 dlEvs h4

/-- C9: in every successful run, the trace is exactly the pose-fetch events
of the aggregation phase, then the single manifest write, then the download
events: the download phase begins only after the aggregation phase has
fully drained and the manifest has been persisted, and the two parallel
phases never interleave. -/
theorem downloads_after_manifest_persisted
    (w : World) (campaign_list : List String) (output : String) (sched : Sched)
    (fs : FS) (trace : List Ev) (fs2 : FS) (db : List Row)
    (h : mainRun w campaign_list output sched fs = .ok (trace, fs2, db)) :
    ∃ pre post,
      trace = pre ++ Ev.writeCsv [output, "filelist.csv"] manifestColumns db :: post
      ∧ (∀ e ∈ pre, ∃ i, e = Ev.getPose i)
      ∧ (∀ e ∈ post, ∃ u fn, e = Ev.imgDownload u fn) :=
  mainRun_trace_shape w campaign_list output sched fs trace fs2 db h

set_option maxRecDepth 1000000 in
/-- Witness for C9 in the concrete world `w0`. -/
theorem downloads_after_manifest_persisted_witness :
    ∃ pre post,
      trace0 = pre ++ Ev.writeCsv ["out", "filelist.csv"] manifestColumns [row0] :: post
      ∧ (∀ e ∈ pre, ∃ i, e = Ev.getPose i)
      ∧ (∀ e ∈ post, ∃ u fn, e = Ev.imgDownload u fn) :=
  downloads_after_manifest_persisted w0 ["c"] "out" sched0 fs0 trace0 fsFinal [row0]
    (by with_unfolding_all rfl)

/-- C8: in every successful run, exactly one manifest file is written, at
`<output>/filelist.csv` under the output root, and its table has exactly
the columns timestamp, lat, lon, dep, alt, image_url, image_id,
deployment_id (holding the full manifest). -/
theorem manifest_written_once_with_columns
    (w : World) (campaign_list : List String) (output : String) (sched : Sched)
    (fs : FS) (trace : List Ev) (fs2 : FS) (db : List Row)
    (h : mainRun w campaign_list output sched fs = .ok (trace, fs2, db)) :
    trace.filter isCsvEv
      = [Ev.writeCsv [output, "filelist.csv"]
          ["timestamp", "lat", "lon", "dep", "alt", "image_url", "image_id",
            "deployment_id"] db] := by
  obtain ⟨pre, post, htr, hpre, hpost⟩ :=
    mainRun_trace_shape w campaign_list output sched fs trace fs2 db h
  rw [htr, List.filter_append, List.filter_cons]
  have hpre2 : pre.filter isCsvEv = [] := by
    rw [List.filter_eq_nil_iff]
    intro e he
    obtain ⟨i, rfl⟩ := hpre e he
    simp [isCsvEv]
  have hpost2 : post.filter isCsvEv = [] := by
    rw [List.filter_eq_nil_iff]
    intro e he
    obtain ⟨u, fn, rfl⟩ := hpost e he
    simp [isCsvEv]
  rw [hpre2, hpost2]
  simp [isCsvEv, manifestColumns]

set_option maxRecDepth 1000000 in
/-- Witness for C8 in the concrete world `w0`. -/
theorem manifest_written_once_with_columns_witness :
    trace0.filter isCsvEv
      = [Ev.writeCsv ["out", "filelist.csv"]
          ["timestamp", "lat", "lon", "dep", "alt", "image_url", "image_id",
            "deployment_id"] [row0]] :=
  manifest_written_once_with_columns w0 ["c"] "out" sched0 fs0 trace0 fsFinal [row0]
    (by with_unfolding_all rfl)

set_option maxRecDepth 1000000 in
/-- C1 (the pagination defect): against a server hosting one deployment
whose first media page reports `num_results = 150` with page size 100 and
serves ids 1..100, with ids 101..150 on the next page, the enumerator
returns only the 100 pairs of page 1: `num_pages = ceil(150/100) = 2`, yet
the subsequent-page loop `range(2, num_pages)` is empty, so page 2 is never
requested and the claimed `2 .. num_pages` inclusive iteration (yielding
all 150 pairs) does not happen. -/
theorem pagination_drops_last_page :
    find_images_in_deployments srv150 [Json.num 7]
      = .ok (idsPage1, (List.range 100).map fun _ => Json.num 7)
    ∧ idsPage1.length = 100 ∧ idsPage2.length = 50 := by
  refine ⟨?_, ?_, ?_⟩
  · with_unfolding_all rfl
  · simp [idsPage1]
  · simp [idsPage2]
